import Mathlib

/-!
A verification development for the `Volume` page controller of the ducker
terminal dashboard (`src/pages/volumes.rs`).

The Rust source is shallowly embedded: the page's mutable fields become a
`VolumeState` record, each method becomes a pure function on that record,
fallible methods return `Except String _`, and the two awaited external
calls (the list fetch and the confirmation-modal action) are passed in as
explicit inputs, so one call of `Volume.update` models one fully handled
event.  Rust's stable `sort_by` is embedded as `List.mergeSort` over the
boolean relation `comparator a b ≠ .gt`, which is the standard reading of a
stable comparator sort.
-/

namespace Ducker

/-- A volume record as consumed by `volumes.rs` (`docker::volume::DockerVolume`):
only the four fields the page reads are carried. `created_at` is optional in
the source (`Option<String>`). -/
structure DockerVolume where
  name : String
  driver : String
  mountpoint : String
  created_at : Option String
deriving Repr, DecidableEq

/-- The sortable columns (`sorting::VolumeSortField`). -/
inductive VolumeSortField where
  | Name
  | Driver
  | Mountpoint
  | Created
deriving Repr, DecidableEq

/-- Sort direction (`sorting::SortOrder`). -/
inductive SortOrder where
  | Ascending
  | Descending
deriving Repr, DecidableEq

/-- Sort bookkeeping (`sorting::SortState<VolumeSortField>`). -/
structure SortState where
  field : VolumeSortField
  order : SortOrder
deriving Repr, DecidableEq

/-- Modelled from the spec: `SortState::toggle_or_set` (the `sorting` module is
not among the sources) — selecting the same field again flips the order;
selecting a new field resets the order to Ascending. -/
def SortState.toggle_or_set (st : SortState) (f : VolumeSortField) : SortState :=
  if st.field = f then
    { st with order := match st.order with
        | SortOrder.Ascending => SortOrder.Descending
        | SortOrder.Descending => SortOrder.Ascending }
  else
    { field := f, order := SortOrder.Ascending }

/-- The per-field comparison from the closure in `Volume::sort_volumes`
(`volumes.rs` lines 221-230): string comparison of the chosen field, with an
absent `created_at` read as `""` via `as_deref().unwrap_or("")`. -/
def volumeComparison (field : VolumeSortField) (a b : DockerVolume) : Ordering :=
  match field with
  | VolumeSortField.Name => compare a.name b.name
  | VolumeSortField.Driver => compare a.driver b.driver
  | VolumeSortField.Mountpoint => compare a.mountpoint b.mountpoint
  | VolumeSortField.Created =>
      let a_created := a.created_at.getD ""
      let b_created := b.created_at.getD ""
      compare a_created b_created

/-- The full comparator of `Volume::sort_volumes` (lines 232-235): the
Ascending comparison, reversed when the order is Descending
(`comparison.reverse()` in Rust is `Ordering.swap`). -/
def sortComparator (st : SortState) (a b : DockerVolume) : Ordering :=
  match st.order with
  | SortOrder.Ascending => volumeComparison st.field a b
  | SortOrder.Descending => (volumeComparison st.field a b).swap

/-- `Volume::sort_volumes` applied to a list: Rust's stable `Vec::sort_by`
with the comparator above, embedded as a stable merge sort on the relation
"comparator does not say greater". -/
def sortVolumesList (st : SortState) (l : List DockerVolume) : List DockerVolume :=
  l.mergeSort fun a b => decide (sortComparator st a b ≠ Ordering.gt)

/-- The string sort key each field projects out (the comparisons in
`sort_volumes` are exactly `compare` on this projection). -/
def sortKey (field : VolumeSortField) (v : DockerVolume) : String :=
  match field with
  | VolumeSortField.Name => v.name
  | VolumeSortField.Driver => v.driver
  | VolumeSortField.Mountpoint => v.mountpoint
  | VolumeSortField.Created => v.created_at.getD ""

theorem volumeComparison_eq_compare_sortKey (field : VolumeSortField)
    (a b : DockerVolume) :
    volumeComparison field a b = compare (sortKey field a) (sortKey field b) := by
  cases field <;> rfl

/-- Key events as `volumes.rs` consumes them (`events::Key` is external; only
the shapes the page matches on are modelled). -/
inductive Key where
  | Up
  | Down
  | Char (c : Char)
  | Ctrl (c : Char)
  | Alt (c : Char)
deriving Repr, DecidableEq

/-- `events::message::MessageResponse`. -/
inductive MessageResponse where
  | Consumed
  | NotConsumed
deriving Repr, DecidableEq

/-- The modal discriminator (`ModalTypes` in `volumes.rs`). -/
inductive ModalTypes where
  | DeleteVolume
  | ForceDeleteVolume
deriving Repr, DecidableEq

/-- Modelled from the spec: the confirmation modal state machine is
`Closed | Open(message)` (`components::boolean_modal::ModalState` is not
among the sources). -/
inductive ModalState where
  | Closed
  | Open (message : String)
deriving Repr, DecidableEq

/-- The delete callback (`callbacks::delete_volume::DeleteVolume::new(docker,
volume, force)`): the docker client handle carries no observable state here,
so the callback is the targeted volume plus the force flag. -/
structure DeleteVolumeCb where
  volume : DockerVolume
  force : Bool
deriving Repr, DecidableEq

/-- Modelled from the spec: the confirmation modal
(`components::boolean_modal::BooleanModal` is not among the sources) holds a
title, a discriminator tag, a `Closed | Open(message)` state and an optional
escalatable action. -/
structure BooleanModal where
  title : String
  discriminator : ModalTypes
  state : ModalState
  action : Option DeleteVolumeCb
deriving Repr, DecidableEq

/-- `BooleanModal::new(title, discriminator)`: starts Closed with no action. -/
def BooleanModal.new (title : String) (discriminator : ModalTypes) : BooleanModal :=
  { title := title, discriminator := discriminator,
    state := ModalState.Closed, action := none }

/-- Modelled from the spec: `BooleanModal::initialise(message, callback)`
opens the modal with the given message and associates the action. -/
def BooleanModal.initialiseModal (m : BooleanModal) (message : String)
    (cb : Option DeleteVolumeCb) : BooleanModal :=
  { m with state := ModalState.Open message, action := cb }

/-- How an open modal classifies a key. -/
inductive ModalKeyKind where
  | confirm
  | cancel
  | other
deriving Repr, DecidableEq

/-- Modelled from the spec: while Open, a dedicated pair of keys is
recognized — confirm and cancel; every other key leaves the modal as is.
The concrete bindings live in the modal component outside the sources; they
are fixed here as `y` / `n`. -/
def classifyModalKey (k : Key) : ModalKeyKind :=
  match k with
  | Key.Char 'y' => ModalKeyKind.confirm
  | Key.Char 'n' => ModalKeyKind.cancel
  | _ => ModalKeyKind.other

/-- Modelled from the spec: `BooleanModal::update(message)` — confirm invokes
the action and awaits its result, transitioning to Closed on success and
surfacing the failure otherwise; cancel transitions to Closed without
invoking the action; any other key leaves the modal Open.  The awaited
action's outcome is supplied as the explicit input `actionResult`. -/
def BooleanModal.updateModal (m : BooleanModal) (k : Key)
    (actionResult : Except String Unit) : Except String BooleanModal :=
  match classifyModalKey k with
  | ModalKeyKind.confirm =>
      match actionResult with
      | Except.ok _ => Except.ok { m with state := ModalState.Closed }
      | Except.error e => Except.error e
  | ModalKeyKind.cancel => Except.ok { m with state := ModalState.Closed }
  | ModalKeyKind.other => Except.ok m

mutual

/-- Modelled from the spec: the page transitions `volumes.rs` constructs
(`events::Transition` is not among the sources); each carries a Context
Carrier. -/
inductive Transition where
  | ToDescribeContainerPage (cx : AppContext)
  | ToVolumePage (cx : AppContext)

/-- Modelled from the spec: the Context Carrier (`context::AppContext` is not
among the sources), restricted to the fields `volumes.rs` reads and writes: a
`docker_volume`, a `describable` (for volumes, the boxed `Describable` is the
volume itself and `get_id()` is its name) and the boxed continuation
transition `then`. -/
inductive AppContext where
  | mk (docker_volume : Option DockerVolume) (describable : Option DockerVolume)
       (thenT : Option Transition)

end

/-- Field accessor: `cx.docker_volume`. -/
def AppContext.docker_volume : AppContext → Option DockerVolume
  | AppContext.mk d _ _ => d

/-- Field accessor: `cx.describable`. -/
def AppContext.describable : AppContext → Option DockerVolume
  | AppContext.mk _ d _ => d

/-- Field accessor: `cx.then`. -/
def AppContext.thenT : AppContext → Option Transition
  | AppContext.mk _ _ t => t

/-- The mutable state of the `Volume` page (`volumes.rs` lines 61-71): the
fields `name`, `tx`, `page_help` and `docker` carry no per-event observable
state in this embedding (the channel is modelled by the outcome's `sent`
list, the client by the explicit fetch/action inputs). `list_state` is
represented by its selected index. -/
structure VolumeState where
  volumes : List DockerVolume
  selected : Option Nat
  modal : Option BooleanModal
  sort_state : SortState
  show_dangling : Bool

/-- `Volume::sort_volumes` on the page state. -/
def VolumeState.sort_volumes (s : VolumeState) : VolumeState :=
  { s with volumes := sortVolumesList s.sort_state s.volumes }

/-- The filter map `Volume::refresh` builds from `show_dangling`
(`volumes.rs` lines 199-204).  NOTE: in the source this map is built and then
never used — `DockerVolume::list(&self.docker)` is called without it. -/
def refreshFilters (show_dangling : Bool) : List (String × List String) :=
  if show_dangling then [("dangling", ["true"])] else [("dangling", ["false"])]

/-- `Volume::refresh` (lines 198-214): builds the (unused) filter map, calls
`DockerVolume::list(&self.docker)` — whose outcome is the explicit input
`fetched`, taking no filter argument, exactly as in the source — stores the
result and re-applies the current sort.  On a fetch error the wrapped,
contextualized error is returned and the state is left untouched. -/
def VolumeState.refresh (s : VolumeState)
    (fetched : Except String (List DockerVolume)) : Except String VolumeState :=
  let _filters := refreshFilters s.show_dangling
  match fetched with
  | Except.error e =>
      Except.error ("unable to retrieve list of volumes: " ++ e)
  | Except.ok vs => Except.ok (VolumeState.sort_volumes { s with volumes := vs })

/-- `Volume::increment_list` (lines 274-284). -/
def VolumeState.increment_list (s : VolumeState) : VolumeState :=
  match s.selected with
  | none => { s with selected := some 0 }
  | some current_idx =>
      if ¬s.volumes.isEmpty ∧ current_idx < s.volumes.length - 1 then
        { s with selected := some (current_idx + 1) }
      else s

/-- `Volume::decrement_list` (lines 286-296). -/
def VolumeState.decrement_list (s : VolumeState) : VolumeState :=
  match s.selected with
  | none => { s with selected := some 0 }
  | some current_idx =>
      if current_idx > 0 then { s with selected := some (current_idx - 1) }
      else s

/-- `Volume::get_volume` (lines 298-305): the volume at the selected index,
or the error `"no container id found"`. -/
def VolumeState.get_volume (s : VolumeState) : Except String DockerVolume :=
  match s.selected with
  | some volume_idx =>
      match s.volumes.get? volume_idx with
      | some volume => Except.ok volume
      | none => Except.error "no container id found"
  | none => Except.error "no container id found"

/-- `Volume::get_context` (lines 307-322): embeds the selected volume as the
describable, and a continuation `Transition::ToVolumePage` whose context
carries the same volume as `docker_volume`. -/
def VolumeState.get_context (s : VolumeState) : Except String AppContext :=
  match s.get_volume with
  | Except.error e => Except.error e
  | Except.ok volume =>
      let thenT := some (Transition.ToVolumePage (AppContext.mk (some volume) none none))
      Except.ok (AppContext.mk none (some volume) thenT)

/-- `Volume::delete_volume` (lines 324-360): requires a selected volume
(else bails with `"Ahhh"`), then installs an Open modal whose action deletes
that volume with the given force flag; message and discriminator default to
the confirmation prompt and `DeleteVolume` unless overridden. -/
def VolumeState.delete_volume (s : VolumeState) (force : Bool)
    (message_override : Option String) (type_override : Option ModalTypes) :
    Except String VolumeState :=
  match s.get_volume with
  | Except.ok volume =>
      let name := volume.name
      let cb : DeleteVolumeCb := { volume := volume, force := force }
      let modal := BooleanModal.new "Delete"
        (match type_override with
         | some t => t
         | none => ModalTypes.DeleteVolume)
      let modal := modal.initialiseModal
        (match message_override with
         | some m => m
         | none => "Are you sure you wish to delete volume " ++ name ++ ")?")
        (some cb)
      Except.ok { s with modal := some modal }
  | Except.error _ => Except.error "Ahhh"

/-- The escalation message of `Volume::update_modal` (line 257). -/
def escalationMessage : String :=
  "An error occurred deleting this volume; would you like to try to force remove?"

/-- `Volume::update_modal` (lines 239-272): with no modal, NotConsumed; with
an Open modal, forward the key to it — on success discard the modal if it
closed and report Consumed; on failure escalate once (only for the
`DeleteVolume` discriminator) into a force-delete modal, reporting Consumed,
and otherwise propagate the error; a Closed modal reports NotConsumed. -/
def VolumeState.update_modal (s : VolumeState) (k : Key)
    (actionResult : Except String Unit) :
    Except String (VolumeState × MessageResponse) :=
  match s.modal with
  | none => Except.ok (s, MessageResponse.NotConsumed)
  | some m =>
      match m.state with
      | ModalState.Open _ =>
          match m.updateModal k actionResult with
          | Except.ok m1 =>
              match m1.state with
              | ModalState.Closed =>
                  Except.ok ({ s with modal := none }, MessageResponse.Consumed)
              | ModalState.Open _ =>
                  Except.ok ({ s with modal := some m1 }, MessageResponse.Consumed)
          | Except.error e =>
              match m.discriminator with
              | ModalTypes.DeleteVolume =>
                  match s.delete_volume true (some escalationMessage)
                      (some ModalTypes.ForceDeleteVolume) with
                  | Except.ok s1 => Except.ok (s1, MessageResponse.Consumed)
                  | Except.error e1 => Except.error e1
              | ModalTypes.ForceDeleteVolume => Except.error e
      | ModalState.Closed => Except.ok (s, MessageResponse.NotConsumed)

/-- The externally supplied outcomes one handled event can await: the list
fetch of `refresh` and the confirmation-modal action. -/
structure Env where
  fetched : Except String (List DockerVolume)
  actionResult : Except String Unit

/-- The observable outcome of handling one event: the state `Volume` is left
in, plus either a `MessageResponse`, a propagated `Result` error, or a Rust
panic (the unguarded `usize` subtraction in the jump-to-bottom arm aborts in
debug builds).  `sent` records the transitions pushed onto `tx`. -/
inductive StepOutcome where
  | ok (s : VolumeState) (resp : MessageResponse) (sent : List Transition)
  | err (s : VolumeState) (e : String) (sent : List Transition)
  | panicked (s : VolumeState) (msg : String) (sent : List Transition)

/-- `Volume::update` (lines 75-139): refresh unconditionally (propagating a
fetch failure), offer the event to the modal (propagating its failure, and
stopping if Consumed), then dispatch on the key table.  The jump-to-bottom
arm reproduces the source's unguarded `self.volumes.len() - 1`: on an empty
list the `usize` subtraction underflows, modelled as a panic. -/
def VolumeState.update (s : VolumeState) (k : Key) (env : Env) : StepOutcome :=
  match s.refresh env.fetched with
  | Except.error e => StepOutcome.err s e []
  | Except.ok s1 =>
      match s1.update_modal k env.actionResult with
      | Except.error e => StepOutcome.err s1 e []
      | Except.ok (s2, MessageResponse.Consumed) =>
          StepOutcome.ok s2 MessageResponse.Consumed []
      | Except.ok (s2, MessageResponse.NotConsumed) =>
          match k with
          | Key.Up =>
              StepOutcome.ok s2.decrement_list MessageResponse.Consumed []
          | Key.Char 'k' =>
              StepOutcome.ok s2.decrement_list MessageResponse.Consumed []
          | Key.Down =>
              StepOutcome.ok s2.increment_list MessageResponse.Consumed []
          | Key.Char 'j' =>
              StepOutcome.ok s2.increment_list MessageResponse.Consumed []
          | Key.Char 'D' =>
              let s3 := { s2 with
                sort_state := s2.sort_state.toggle_or_set VolumeSortField.Driver }
              StepOutcome.ok s3.sort_volumes MessageResponse.Consumed []
          | Key.Char 'g' =>
              StepOutcome.ok { s2 with selected := some 0 } MessageResponse.Consumed []
          | Key.Char 'G' =>
              if s2.volumes.isEmpty then
                StepOutcome.panicked s2 "attempt to subtract with overflow" []
              else
                StepOutcome.ok { s2 with selected := some (s2.volumes.length - 1) }
                  MessageResponse.Consumed []
          | Key.Char 'N' =>
              let s3 := { s2 with
                sort_state := s2.sort_state.toggle_or_set VolumeSortField.Name }
              StepOutcome.ok s3.sort_volumes MessageResponse.Consumed []
          | Key.Char 'C' =>
              let s3 := { s2 with
                sort_state := s2.sort_state.toggle_or_set VolumeSortField.Created }
              StepOutcome.ok s3.sort_volumes MessageResponse.Consumed []
          | Key.Char 'M' =>
              let s3 := { s2 with
                sort_state := s2.sort_state.toggle_or_set VolumeSortField.Mountpoint }
              StepOutcome.ok s3.sort_volumes MessageResponse.Consumed []
          | Key.Ctrl 'd' =>
              match s2.delete_volume false none none with
              | Except.ok s3 => StepOutcome.ok s3 MessageResponse.Consumed []
              | Except.error _ => StepOutcome.ok s2 MessageResponse.NotConsumed []
          | Key.Alt 'd' =>
              StepOutcome.ok { s2 with show_dangling := ¬s2.show_dangling }
                MessageResponse.Consumed []
          | Key.Char 'd' =>
              match s2.get_context with
              | Except.ok cx =>
                  StepOutcome.ok s2 MessageResponse.Consumed
                    [Transition.ToDescribeContainerPage cx]
              | Except.error e => StepOutcome.err s2 e []
          | _ => StepOutcome.ok s2 MessageResponse.NotConsumed []

/-- The selection scan of `Volume::initialise` (lines 156-161): index of the
first volume whose name equals `volume_id`. -/
def findVolumeIdx (volumes : List DockerVolume) (volume_id : String) : Option Nat :=
  match volumes with
  | [] => none
  | c :: rest =>
      if c.name = volume_id then some 0
      else (findVolumeIdx rest volume_id).map (· + 1)

/-- `Volume::initialise` (lines 141-164): reset the selection to index 0,
refresh (wrapping a failure with its context), then — if the inbound context
names a volume, preferring `docker_volume` over `describable` — select the
first list entry with that name, leaving the selection at 0 when the name is
absent or no context names a volume. -/
def VolumeState.initialise (s : VolumeState) (cx : AppContext)
    (fetched : Except String (List DockerVolume)) : Except String VolumeState :=
  let s0 := { s with selected := some 0 }
  match s0.refresh fetched with
  | Except.error e => Except.error ("unable to refresh volumes: " ++ e)
  | Except.ok s1 =>
      match
        (match cx.docker_volume with
         | some volume => some volume.name
         | none =>
             match cx.describable with
             | some thing => some thing.name
             | none => none) with
      | none => Except.ok s1
      | some volume_id =>
          match findVolumeIdx s1.volumes volume_id with
          | some idx => Except.ok { s1 with selected := some idx }
          | none => Except.ok s1

/-! ## Helper lemmas about the comparator -/

theorem swap_ne_gt_iff {o : Ordering} : o.swap ≠ Ordering.gt ↔ o ≠ Ordering.lt := by
  cases o <;> simp [Ordering.swap]

theorem compare_empty_string_ne_gt (y : String) : compare "" y ≠ Ordering.gt := by
  intro hgt
  rw [LinearOrder.compare_eq_compareOfLessAndEq, compareOfLessAndEq] at hgt
  split_ifs at hgt with h1 h2
  exact h1 (lt_of_le_of_ne (String.le_iff_toList_le.mpr List.nil_le) h2)

theorem sortComparator_le_trans (st : SortState) (a b c : DockerVolume)
    (h₁ : sortComparator st a b ≠ Ordering.gt)
    (h₂ : sortComparator st b c ≠ Ordering.gt) :
    sortComparator st a c ≠ Ordering.gt := by
  obtain ⟨f, ord⟩ := st
  cases ord <;>
    simp only [sortComparator, volumeComparison_eq_compare_sortKey] at h₁ h₂ ⊢
  · exact Batteries.TransCmp.le_trans h₁ h₂
  · rw [swap_ne_gt_iff] at h₁ h₂ ⊢
    exact Batteries.TransCmp.ge_trans h₁ h₂

theorem sortComparator_total (st : SortState) (a b : DockerVolume) :
    sortComparator st a b ≠ Ordering.gt ∨ sortComparator st b a ≠ Ordering.gt := by
  obtain ⟨f, ord⟩ := st
  cases ord <;>
    simp only [sortComparator, volumeComparison_eq_compare_sortKey, swap_ne_gt_iff]
  · rcases h : compare (sortKey f a) (sortKey f b) with _ | _ | _
    · exact Or.inl (by simp [h])
    · exact Or.inl (by simp [h])
    · exact Or.inr (by simp [Batteries.OrientedCmp.cmp_eq_gt.mp h])
  · rcases h : compare (sortKey f a) (sortKey f b) with _ | _ | _
    · exact Or.inr (by simp [Batteries.OrientedCmp.cmp_eq_gt.mpr h])
    · exact Or.inl (by simp [h])
    · exact Or.inl (by simp [h])

theorem sortComparator_of_key_eq (st : SortState) (a b : DockerVolume)
    (h : sortKey st.field a = sortKey st.field b) :
    sortComparator st a b ≠ Ordering.gt := by
  obtain ⟨f, ord⟩ := st
  have hrefl : compare (sortKey f b) (sortKey f b) = Ordering.eq :=
    Batteries.OrientedCmp.cmp_refl
  cases ord <;>
    simp only [sortComparator, volumeComparison_eq_compare_sortKey, swap_ne_gt_iff] <;>
    rw [show sortKey f a = sortKey f b from h, hrefl] <;>
    decide

/-! ## Claims about the sort engine -/

/-- C7: for every sort field and every pair of records, the comparator under
Descending returns the exact reverse of the comparator under Ascending — the
comparison result is flipped, not re-derived. -/
theorem c7_descending_mirrors_ascending (field : VolumeSortField)
    (a b : DockerVolume) :
    sortComparator { field := field, order := SortOrder.Descending } a b
      = (sortComparator { field := field, order := SortOrder.Ascending } a b).swap := rfl

/-- C8: `sort_volumes` is stable — for every list and every sort state, the
records sharing any one sort-key value keep their relative pre-sort order
(they form an unchanged subsequence of the sorted list) — and for the
creation-timestamp field an absent value is compared as the empty string, so
it never compares greater than any other value under Ascending. -/
theorem c8_sort_stable_absent_created_first :
    (∀ (st : SortState) (l : List DockerVolume) (v : String),
        (l.filter fun x => sortKey st.field x == v).Sublist (sortVolumesList st l))
    ∧ ∀ (a b : DockerVolume), a.created_at = none →
        volumeComparison VolumeSortField.Created a b ≠ Ordering.gt := by
  constructor
  · intro st l v
    simp only [sortVolumesList]
    apply List.sublist_mergeSort
    · intro a b c hab hbc
      simp only [decide_eq_true_eq] at hab hbc ⊢
      exact sortComparator_le_trans st a b c hab hbc
    · intro a b
      rcases sortComparator_total st a b with h | h <;> simp [h]
    · apply List.pairwise_of_forall_mem_list
      intro a ha b hb
      have ha' := List.of_mem_filter ha
      have hb' := List.of_mem_filter hb
      simp only [beq_iff_eq] at ha' hb'
      simp only [decide_eq_true_eq]
      exact sortComparator_of_key_eq st a b (ha'.trans hb'.symm)
    · exact List.filter_sublist l
  · intro a b ha
    rw [volumeComparison_eq_compare_sortKey]
    simp only [sortKey, ha, Option.getD_none]
    exact compare_empty_string_ne_gt _

/-- C8 witness: the creation-timestamp conjunct at a concrete absent-valued
record, and the hypothesis `created_at = none` discharged concretely. -/
theorem c8_witness :
    (DockerVolume.mk "vol2" "local" "/mnt/vol2" none).created_at = none
    ∧ volumeComparison VolumeSortField.Created
        (DockerVolume.mk "vol2" "local" "/mnt/vol2" none)
        (DockerVolume.mk "vol1" "local" "/mnt/vol1" (some "2024")) ≠ Ordering.gt :=
  ⟨rfl, c8_sort_stable_absent_created_first.2 _ _ rfl⟩

/-- C1: the source builds the dangling filter map from the toggle but calls
`DockerVolume::list` without it, so the fetched (and stored) list is
identical for both toggle values — the dead filter map is the only thing the
toggle changes. -/
theorem c1_fetched_list_ignores_dangling_toggle :
    (∀ (s : VolumeState) (fetched : Except String (List DockerVolume)) (b₁ b₂ : Bool),
        (VolumeState.refresh { s with show_dangling := b₁ } fetched).map
            VolumeState.volumes
          = (VolumeState.refresh { s with show_dangling := b₂ } fetched).map
              VolumeState.volumes)
    ∧ refreshFilters true ≠ refreshFilters false := by
  constructor
  · intro s fetched b₁ b₂
    cases fetched <;> rfl
  · decide

/-! ## Outcome projections and helper lemmas about the page controller -/

/-- The state the page is left in, whatever the outcome. -/
def StepOutcome.state : StepOutcome → VolumeState
  | StepOutcome.ok s _ _ => s
  | StepOutcome.err s _ _ => s
  | StepOutcome.panicked s _ _ => s

/-- The `MessageResponse` the caller of `handle` sees, when there is one. -/
def StepOutcome.response : StepOutcome → Option MessageResponse
  | StepOutcome.ok _ r _ => some r
  | StepOutcome.err _ _ _ => none
  | StepOutcome.panicked _ _ _ => none

/-- The transitions pushed onto the outbound channel. -/
def StepOutcome.sentMsgs : StepOutcome → List Transition
  | StepOutcome.ok _ _ t => t
  | StepOutcome.err _ _ t => t
  | StepOutcome.panicked _ _ t => t

/-- The navigation-state invariant: the selection is `None` or a valid index
into the current resource list. -/
def VolumeState.selectionValid (s : VolumeState) : Prop :=
  ∀ i, s.selected = some i → i < s.volumes.length

theorem length_sortVolumesList (st : SortState) (l : List DockerVolume) :
    (sortVolumesList st l).length = l.length := by
  simp [sortVolumesList]

theorem delete_volume_only_modal (s : VolumeState) (force : Bool)
    (mo : Option String) (tov : Option ModalTypes) (s1 : VolumeState)
    (h : s.delete_volume force mo tov = Except.ok s1) :
    s1.selected = s.selected ∧ s1.volumes = s.volumes
      ∧ s1.sort_state = s.sort_state ∧ s1.show_dangling = s.show_dangling := by
  unfold VolumeState.delete_volume at h
  split at h
  · cases h
    exact ⟨rfl, rfl, rfl, rfl⟩
  · cases h

theorem update_modal_only_modal (s : VolumeState) (k : Key)
    (ar : Except String Unit) (s' : VolumeState) (r : MessageResponse)
    (h : s.update_modal k ar = Except.ok (s', r)) :
    s'.selected = s.selected ∧ s'.volumes = s.volumes
      ∧ s'.sort_state = s.sort_state ∧ s'.show_dangling = s.show_dangling := by
  unfold VolumeState.update_modal at h
  split at h
  · cases h
    exact ⟨rfl, rfl, rfl, rfl⟩
  · split at h
    · split at h
      · split at h
        · cases h
          exact ⟨rfl, rfl, rfl, rfl⟩
        · cases h
          exact ⟨rfl, rfl, rfl, rfl⟩
      · split at h
        · split at h
          · cases h
            rename_i hd
            exact delete_volume_only_modal _ _ _ _ _ hd
          · cases h
        · cases h
    · cases h
      exact ⟨rfl, rfl, rfl, rfl⟩

theorem update_modal_notConsumed_id (s : VolumeState) (k : Key)
    (ar : Except String Unit) (s' : VolumeState)
    (h : s.update_modal k ar = Except.ok (s', MessageResponse.NotConsumed)) :
    s' = s := by
  unfold VolumeState.update_modal at h
  split at h
  · cases h
    rfl
  · split at h
    · split at h
      · split at h <;> cases h
      · split at h
        · split at h <;> cases h
        · cases h
    · cases h
      rfl

theorem update_modal_open_consumed (s : VolumeState) (m : BooleanModal)
    (msg : String) (k : Key) (ar : Except String Unit) (s' : VolumeState)
    (r : MessageResponse) (hm : s.modal = some m)
    (ho : m.state = ModalState.Open msg)
    (h : s.update_modal k ar = Except.ok (s', r)) :
    r = MessageResponse.Consumed := by
  simp only [VolumeState.update_modal, hm, ho] at h
  split at h
  · split at h
    · cases h
      rfl
    · cases h
      rfl
  · split at h
    · split at h
      · cases h
        rfl
      · cases h
    · cases h

/-! ## Claims about error handling and the navigation invariant -/

/-- C9: when the refresh fetch fails, `update` surfaces the contextualized
error to the caller, the state is returned exactly as it was (list, sort
state, selection and modal untouched), and nothing is dispatched or sent. -/
theorem c9_fetch_error_recoverable (s : VolumeState) (k : Key) (env : Env)
    (e : String) (h : env.fetched = Except.error e) :
    s.update k env
      = StepOutcome.err s ("unable to retrieve list of volumes: " ++ e) [] := by
  simp [VolumeState.update, VolumeState.refresh, h]

/-- C9 witness: the fetch-failure hypothesis discharged at a concrete state
and event. -/
theorem c9_witness :
    (Env.mk (Except.error "boom") (Except.ok ())).fetched = Except.error "boom"
    ∧ VolumeState.update
        (VolumeState.mk [] none none
          (SortState.mk VolumeSortField.Name SortOrder.Ascending) true)
        Key.Up (Env.mk (Except.error "boom") (Except.ok ()))
      = StepOutcome.err
          (VolumeState.mk [] none none
            (SortState.mk VolumeSortField.Name SortOrder.Ascending) true)
          ("unable to retrieve list of volumes: " ++ "boom") [] :=
  ⟨rfl, c9_fetch_error_recoverable _ _ _ _ rfl⟩

set_option maxHeartbeats 1000000 in
/-- C4: the jump-to-bottom arm is NOT safe on an empty list — the source
computes `self.volumes.len() - 1` unguarded, and with `len = 0` the `usize`
subtraction underflows (a panic in debug builds), rather than failing or
no-opping. -/
theorem c4_jump_bottom_empty_underflows :
    VolumeState.update
        (VolumeState.mk [] none none
          (SortState.mk VolumeSortField.Name SortOrder.Ascending) true)
        (Key.Char 'G') (Env.mk (Except.ok []) (Except.ok ()))
      = StepOutcome.panicked
          (VolumeState.mk [] none none
            (SortState.mk VolumeSortField.Name SortOrder.Ascending) true)
          "attempt to subtract with overflow" [] := by
  simp [VolumeState.update, VolumeState.refresh, VolumeState.update_modal,
    VolumeState.sort_volumes, sortVolumesList]

set_option maxHeartbeats 1000000 in
/-- C3 counterexample: jump-to-top on an empty list is Consumed and sets the
selection to `Some 0`, which is not a valid index into the (empty) current
resource list — so the invariant "never `Some(i)` with `i >= len`, including
on an empty list" fails after this operation. -/
theorem c3_counterexample_empty_list_top :
    VolumeState.update
        (VolumeState.mk [] none none
          (SortState.mk VolumeSortField.Name SortOrder.Ascending) true)
        (Key.Char 'g') (Env.mk (Except.ok []) (Except.ok ()))
      = StepOutcome.ok
          (VolumeState.mk [] (some 0) none
            (SortState.mk VolumeSortField.Name SortOrder.Ascending) true)
          MessageResponse.Consumed []
    ∧ ¬ (VolumeState.mk [] (some 0) none
          (SortState.mk VolumeSortField.Name SortOrder.Ascending) true).selectionValid := by
  constructor
  · simp [VolumeState.update, VolumeState.refresh, VolumeState.update_modal,
      VolumeState.sort_volumes, sortVolumesList]
  · intro h
    exact absurd (h 0 rfl) (by simp)

/-! ## Navigation-safety lemmas -/

theorem selectionValid_set_zero (s : VolumeState) (hne : s.volumes ≠ []) :
    ({ s with selected := some 0 } : VolumeState).selectionValid := by
  intro i hi
  have h0 := Option.some.inj hi
  subst h0
  exact List.length_pos.mpr hne

theorem selectionValid_set_last (s : VolumeState) (hne : s.volumes ≠ []) :
    ({ s with selected := some (s.volumes.length - 1) } : VolumeState).selectionValid := by
  intro i hi
  have h0 := Option.some.inj hi
  subst h0
  have hpos := List.length_pos.mpr hne
  show s.volumes.length - 1 < s.volumes.length
  omega

theorem selectionValid_decrement (s : VolumeState) (hne : s.volumes ≠ [])
    (hv : s.selectionValid) : s.decrement_list.selectionValid := by
  unfold VolumeState.decrement_list
  rcases hsel : s.selected with _ | i
  · show ({ s with selected := some 0 } : VolumeState).selectionValid
    exact selectionValid_set_zero s hne
  · show (if i > 0 then ({ s with selected := some (i - 1) } : VolumeState)
        else s).selectionValid
    by_cases hi : i > 0
    · rw [if_pos hi]
      intro j hj
      have h0 := Option.some.inj hj
      subst h0
      have := hv i hsel
      show i - 1 < s.volumes.length
      omega
    · rw [if_neg hi]
      exact hv

theorem selectionValid_increment (s : VolumeState) (hne : s.volumes ≠ [])
    (hv : s.selectionValid) : s.increment_list.selectionValid := by
  unfold VolumeState.increment_list
  rcases hsel : s.selected with _ | i
  · show ({ s with selected := some 0 } : VolumeState).selectionValid
    exact selectionValid_set_zero s hne
  · show (if ¬s.volumes.isEmpty ∧ i < s.volumes.length - 1 then
        ({ s with selected := some (i + 1) } : VolumeState) else s).selectionValid
    split
    · rename_i hcond
      intro j hj
      have h0 := Option.some.inj hj
      subst h0
      have h2 := hcond.2
      show i + 1 < s.volumes.length
      omega
    · exact hv

theorem selectionValid_sort (s : VolumeState) (hv : s.selectionValid) :
    s.sort_volumes.selectionValid := by
  intro i hi
  have h1 := hv i hi
  show i < (sortVolumesList s.sort_state s.volumes).length
  rw [length_sortVolumesList]
  exact h1

/-- C3 (amended): the unqualified invariant fails on empty lists (see the
counterexample: an explicit top command records `Some 0` on an empty list)
and `refresh` itself re-clamps nothing; what holds is: whenever the freshly
fetched list is non-empty and the incoming selection is `None` or valid for
it, the state after handling any event — whatever the key, modal state, and
action outcome — again satisfies the navigation invariant. -/
theorem c3_selection_valid_after_event (s : VolumeState) (k : Key) (env : Env)
    (vs : List DockerVolume) (hf : env.fetched = Except.ok vs) (hne : vs ≠ [])
    (hsel : ∀ i, s.selected = some i → i < vs.length) :
    (s.update k env).state.selectionValid := by
  have hrefresh : s.refresh env.fetched
      = Except.ok (VolumeState.sort_volumes { s with volumes := vs }) := by
    simp [VolumeState.refresh, hf]
  set s1 := VolumeState.sort_volumes { s with volumes := vs } with hs1def
  have hlen1 : s1.volumes.length = vs.length := by
    simp [hs1def, VolumeState.sort_volumes, length_sortVolumesList]
  have hne1 : s1.volumes ≠ [] := by
    intro h0
    apply hne
    apply List.length_eq_zero.mp
    rw [← hlen1, h0]
    rfl
  have hv1 : s1.selectionValid := by
    intro i hi
    rw [hlen1]
    exact hsel i hi
  simp only [VolumeState.update, hrefresh]
  rcases hu : s1.update_modal k env.actionResult with e | ⟨s2, r⟩
  · simp only [hu]
    exact hv1
  · obtain ⟨he1, he2, -, -⟩ := update_modal_only_modal _ _ _ _ _ hu
    have hv2 : s2.selectionValid := by
      intro i hi
      rw [he2]
      apply hv1 i
      rw [← he1]
      exact hi
    cases r
    · simp only [hu]
      exact hv2
    · have hid := update_modal_notConsumed_id _ _ _ _ hu
      subst hid
      simp only [hu]
      split
      · exact selectionValid_decrement _ hne1 hv1
      · exact selectionValid_decrement _ hne1 hv1
      · exact selectionValid_increment _ hne1 hv1
      · exact selectionValid_increment _ hne1 hv1
      · exact selectionValid_sort _ (fun i hi => hv1 i hi)
      · exact selectionValid_set_zero _ hne1
      · split
        · exact hv1
        · exact selectionValid_set_last _ hne1
      · exact selectionValid_sort _ (fun i hi => hv1 i hi)
      · exact selectionValid_sort _ (fun i hi => hv1 i hi)
      · exact selectionValid_sort _ (fun i hi => hv1 i hi)
      · split
        · rename_i s3 hd
          obtain ⟨hd1, hd2, -, -⟩ := delete_volume_only_modal _ _ _ _ _ hd
          show s3.selectionValid
          intro i hi
          rw [hd2]
          apply hv1 i
          rw [← hd1]
          exact hi
        · exact hv1
      · exact hv1
      · split
        · exact hv1
        · exact hv1
      · exact hv1

/-- C3 witness for the amended theorem: hypotheses discharged on a singleton
fetched list with no incoming selection. -/
theorem c3_amended_witness :
    ([DockerVolume.mk "vol1" "local" "/mnt/vol1" none] : List DockerVolume) ≠ []
    ∧ (VolumeState.update
        (VolumeState.mk [] none none
          (SortState.mk VolumeSortField.Name SortOrder.Ascending) true)
        Key.Down
        (Env.mk (Except.ok [DockerVolume.mk "vol1" "local" "/mnt/vol1" none])
          (Except.ok ()))).state.selectionValid :=
  ⟨by decide,
    c3_selection_valid_after_event _ _ _ _ rfl (by decide)
      (fun i hi => Option.noConfusion hi)⟩

/-- C5: on a non-empty fetched list with a valid current selection and no
modal, move-up lands on `i - 1` (a no-op at index 0), move-down lands on
`min (i+1) (len-1)` (a no-op at the last index), jump-to-top lands on `0`,
jump-to-bottom lands on `len - 1`, and each result is within `[0, len-1]`. -/
theorem c5_navigation_bounds (s : VolumeState) (env : Env)
    (vs : List DockerVolume) (i : Nat)
    (hf : env.fetched = Except.ok vs) (hne : vs ≠ []) (hmodal : s.modal = none)
    (hsel : s.selected = some i) (hi : i < vs.length) :
    ((s.update Key.Up env).state.selected = some (i - 1) ∧ i - 1 < vs.length)
    ∧ ((s.update Key.Down env).state.selected = some (min (i + 1) (vs.length - 1))
        ∧ min (i + 1) (vs.length - 1) < vs.length)
    ∧ (s.update (Key.Char 'g') env).state.selected = some 0
    ∧ ((s.update (Key.Char 'G') env).state.selected = some (vs.length - 1)
        ∧ vs.length - 1 < vs.length) := by
  have hrefresh : s.refresh env.fetched
      = Except.ok (VolumeState.sort_volumes { s with volumes := vs }) := by
    simp [VolumeState.refresh, hf]
  set s1 := VolumeState.sort_volumes { s with volumes := vs } with hs1def
  have hlen1 : s1.volumes.length = vs.length := by
    simp [hs1def, VolumeState.sort_volumes, length_sortVolumesList]
  have hne1 : s1.volumes ≠ [] := by
    intro h0
    apply hne
    apply List.length_eq_zero.mp
    rw [← hlen1, h0]
    rfl
  have hmodal1 : s1.modal = none := hmodal
  have hsel1 : s1.selected = some i := hsel
  have hpos : 0 < vs.length := List.length_pos.mpr hne
  have hum : ∀ kk : Key,
      s1.update_modal kk env.actionResult
        = Except.ok (s1, MessageResponse.NotConsumed) := by
    intro kk
    simp [VolumeState.update_modal, hmodal1]
  refine ⟨⟨?_, ?_⟩, ⟨?_, ?_⟩, ?_, ?_, ?_⟩
  · simp only [VolumeState.update, hrefresh, hum]
    show s1.decrement_list.selected = some (i - 1)
    unfold VolumeState.decrement_list
    rw [hsel1]
    show (if i > 0 then ({ s1 with selected := some (i - 1) } : VolumeState)
        else s1).selected = some (i - 1)
    by_cases hz : i > 0
    · rw [if_pos hz]
    · rw [if_neg hz]
      rw [hsel1]
      have hz0 : i = 0 := by omega
      subst hz0
      rfl
  · omega
  · simp only [VolumeState.update, hrefresh, hum]
    show s1.increment_list.selected = some (min (i + 1) (vs.length - 1))
    unfold VolumeState.increment_list
    rw [hsel1]
    show (if ¬s1.volumes.isEmpty ∧ i < s1.volumes.length - 1 then
        ({ s1 with selected := some (i + 1) } : VolumeState)
      else s1).selected = some (min (i + 1) (vs.length - 1))
    by_cases hc : i < vs.length - 1
    · rw [if_pos]
      · show some (i + 1) = some (min (i + 1) (vs.length - 1))
        have hmin : min (i + 1) (vs.length - 1) = i + 1 := by omega
        rw [hmin]
      · constructor
        · intro habs
          exact hne1 (List.isEmpty_iff.mp habs)
        · rw [hlen1]
          exact hc
    · rw [if_neg]
      · rw [hsel1]
        have hmin : min (i + 1) (vs.length - 1) = i := by omega
        rw [hmin]
      · intro hcon
        have h2 := hcon.2
        rw [hlen1] at h2
        exact hc h2
  · omega
  · simp only [VolumeState.update, hrefresh, hum]
    rfl
  · simp only [VolumeState.update, hrefresh, hum]
    have hie : s1.volumes.isEmpty = false := by
      rw [List.isEmpty_eq_false]
      exact hne1
    have hnie : ¬(s1.volumes.isEmpty = true) := by
      rw [hie]
      decide
    rw [if_neg hnie]
    show some (s1.volumes.length - 1) = some (vs.length - 1)
    rw [hlen1]
  · omega

/-- C5 witness: the hypotheses discharged on a concrete two-element fetched
list with the selection at index 1. -/
theorem c5_witness :
    ([DockerVolume.mk "vol1" "local" "/mnt/vol1" none,
      DockerVolume.mk "vol2" "local" "/mnt/vol2" none] : List DockerVolume) ≠ []
    ∧ (1 : Nat) < 2
    ∧ (((VolumeState.mk [] (some 1) none
          (SortState.mk VolumeSortField.Name SortOrder.Ascending) true).update
            Key.Up
            (Env.mk
              (Except.ok [DockerVolume.mk "vol1" "local" "/mnt/vol1" none,
                DockerVolume.mk "vol2" "local" "/mnt/vol2" none])
              (Except.ok ()))).state.selected = some 0
        ∧ (0 : Nat) < 2)
      ∧ ((((VolumeState.mk [] (some 1) none
          (SortState.mk VolumeSortField.Name SortOrder.Ascending) true).update
            Key.Down
            (Env.mk
              (Except.ok [DockerVolume.mk "vol1" "local" "/mnt/vol1" none,
                DockerVolume.mk "vol2" "local" "/mnt/vol2" none])
              (Except.ok ()))).state.selected = some (min 2 1)
        ∧ min 2 1 < 2)
      ∧ ((VolumeState.mk [] (some 1) none
          (SortState.mk VolumeSortField.Name SortOrder.Ascending) true).update
            (Key.Char 'g')
            (Env.mk
              (Except.ok [DockerVolume.mk "vol1" "local" "/mnt/vol1" none,
                DockerVolume.mk "vol2" "local" "/mnt/vol2" none])
              (Except.ok ()))).state.selected = some 0
      ∧ (((VolumeState.mk [] (some 1) none
          (SortState.mk VolumeSortField.Name SortOrder.Ascending) true).update
            (Key.Char 'G')
            (Env.mk
              (Except.ok [DockerVolume.mk "vol1" "local" "/mnt/vol1" none,
                DockerVolume.mk "vol2" "local" "/mnt/vol2" none])
              (Except.ok ()))).state.selected = some 1
        ∧ (1 : Nat) < 2)) :=
  ⟨by decide, by decide,
    c5_navigation_bounds
      (VolumeState.mk [] (some 1) none
        (SortState.mk VolumeSortField.Name SortOrder.Ascending) true)
      (Env.mk
        (Except.ok [DockerVolume.mk "vol1" "local" "/mnt/vol1" none,
          DockerVolume.mk "vol2" "local" "/mnt/vol2" none])
        (Except.ok ()))
      [DockerVolume.mk "vol1" "local" "/mnt/vol1" none,
        DockerVolume.mk "vol2" "local" "/mnt/vol2" none]
      1 rfl (by decide) rfl rfl (by decide)⟩

/-! ## Claims about the confirmation modal -/

/-- C2: when the open modal's action fails, a `DeleteVolume` discriminator is
escalated exactly once — the error is swallowed and a fresh Open modal is
installed carrying the escalation message, the `ForceDeleteVolume`
discriminator and the same deletion with `force = true` (for the currently
selected volume) — while a `ForceDeleteVolume` discriminator's failure is
returned to the caller unchanged. -/
theorem c2_escalation_fires_once (s : VolumeState) (m : BooleanModal)
    (msg : String) (k : Key) (e : String)
    (hm : s.modal = some m) (ho : m.state = ModalState.Open msg)
    (hk : classifyModalKey k = ModalKeyKind.confirm) :
    (∀ v : DockerVolume, m.discriminator = ModalTypes.DeleteVolume →
        s.get_volume = Except.ok v →
        s.update_modal k (Except.error e)
          = Except.ok
              ({ s with modal := some (BooleanModal.mk "Delete"
                  ModalTypes.ForceDeleteVolume
                  (ModalState.Open escalationMessage)
                  (some (DeleteVolumeCb.mk v true))) },
                MessageResponse.Consumed))
    ∧ (m.discriminator = ModalTypes.ForceDeleteVolume →
        s.update_modal k (Except.error e) = Except.error e) := by
  have hrun : m.updateModal k (Except.error e) = Except.error e := by
    simp [BooleanModal.updateModal, hk]
  constructor
  · intro v hd hv
    simp only [VolumeState.update_modal, hm, ho, hrun, hd,
      VolumeState.delete_volume, hv, BooleanModal.new, BooleanModal.initialiseModal]
  · intro hd
    simp only [VolumeState.update_modal, hm, ho, hrun, hd]

/-- C2 witness: hypotheses discharged on a concrete page state with an open
primary delete modal and the confirm key. -/
theorem c2_witness :
    (VolumeState.mk [DockerVolume.mk "vol1" "local" "/mnt/vol1" none] (some 0)
        (some (BooleanModal.mk "Delete" ModalTypes.DeleteVolume
          (ModalState.Open "Are you sure?")
          (some (DeleteVolumeCb.mk
            (DockerVolume.mk "vol1" "local" "/mnt/vol1" none) false))))
        (SortState.mk VolumeSortField.Name SortOrder.Ascending) true).modal
      = some (BooleanModal.mk "Delete" ModalTypes.DeleteVolume
          (ModalState.Open "Are you sure?")
          (some (DeleteVolumeCb.mk
            (DockerVolume.mk "vol1" "local" "/mnt/vol1" none) false)))
    ∧ classifyModalKey (Key.Char 'y') = ModalKeyKind.confirm
    ∧ ((∀ v : DockerVolume,
        (BooleanModal.mk "Delete" ModalTypes.DeleteVolume
          (ModalState.Open "Are you sure?")
          (some (DeleteVolumeCb.mk
            (DockerVolume.mk "vol1" "local" "/mnt/vol1" none) false))).discriminator
          = ModalTypes.DeleteVolume →
        (VolumeState.mk [DockerVolume.mk "vol1" "local" "/mnt/vol1" none] (some 0)
          (some (BooleanModal.mk "Delete" ModalTypes.DeleteVolume
            (ModalState.Open "Are you sure?")
            (some (DeleteVolumeCb.mk
              (DockerVolume.mk "vol1" "local" "/mnt/vol1" none) false))))
          (SortState.mk VolumeSortField.Name SortOrder.Ascending) true).get_volume
          = Except.ok v →
        (VolumeState.mk [DockerVolume.mk "vol1" "local" "/mnt/vol1" none] (some 0)
          (some (BooleanModal.mk "Delete" ModalTypes.DeleteVolume
            (ModalState.Open "Are you sure?")
            (some (DeleteVolumeCb.mk
              (DockerVolume.mk "vol1" "local" "/mnt/vol1" none) false))))
          (SortState.mk VolumeSortField.Name SortOrder.Ascending) true).update_modal
            (Key.Char 'y') (Except.error "client error")
          = Except.ok
              ({ VolumeState.mk [DockerVolume.mk "vol1" "local" "/mnt/vol1" none]
                  (some 0)
                  (some (BooleanModal.mk "Delete" ModalTypes.DeleteVolume
                    (ModalState.Open "Are you sure?")
                    (some (DeleteVolumeCb.mk
                      (DockerVolume.mk "vol1" "local" "/mnt/vol1" none) false))))
                  (SortState.mk VolumeSortField.Name SortOrder.Ascending) true with
                    modal := some (BooleanModal.mk "Delete"
                      ModalTypes.ForceDeleteVolume
                      (ModalState.Open escalationMessage)
                      (some (DeleteVolumeCb.mk v true))) },
                MessageResponse.Consumed))
      ∧ ((BooleanModal.mk "Delete" ModalTypes.DeleteVolume
            (ModalState.Open "Are you sure?")
            (some (DeleteVolumeCb.mk
              (DockerVolume.mk "vol1" "local" "/mnt/vol1" none) false))).discriminator
          = ModalTypes.ForceDeleteVolume →
        (VolumeState.mk [DockerVolume.mk "vol1" "local" "/mnt/vol1" none] (some 0)
          (some (BooleanModal.mk "Delete" ModalTypes.DeleteVolume
            (ModalState.Open "Are you sure?")
            (some (DeleteVolumeCb.mk
              (DockerVolume.mk "vol1" "local" "/mnt/vol1" none) false))))
          (SortState.mk VolumeSortField.Name SortOrder.Ascending) true).update_modal
            (Key.Char 'y') (Except.error "client error")
          = Except.error "client error")) :=
  ⟨rfl, rfl,
    c2_escalation_fires_once
      (VolumeState.mk [DockerVolume.mk "vol1" "local" "/mnt/vol1" none] (some 0)
        (some (BooleanModal.mk "Delete" ModalTypes.DeleteVolume
          (ModalState.Open "Are you sure?")
          (some (DeleteVolumeCb.mk
            (DockerVolume.mk "vol1" "local" "/mnt/vol1" none) false))))
        (SortState.mk VolumeSortField.Name SortOrder.Ascending) true)
      (BooleanModal.mk "Delete" ModalTypes.DeleteVolume
        (ModalState.Open "Are you sure?")
        (some (DeleteVolumeCb.mk
          (DockerVolume.mk "vol1" "local" "/mnt/vol1" none) false)))
      "Are you sure?" (Key.Char 'y') "client error" rfl rfl rfl⟩

set_option maxHeartbeats 1000000 in
/-- C10 counterexample: with the escalated (force-delete) modal open, the
confirm key with a failing action makes `update` return a propagated error —
no `MessageResponse` at all, in particular not `Consumed` — refuting "every
key event is reported as Consumed while a modal is open". -/
theorem c10_counterexample_error_not_consumed :
    VolumeState.update
        (VolumeState.mk [DockerVolume.mk "vol1" "local" "/mnt/vol1" none] (some 0)
          (some (BooleanModal.mk "Delete" ModalTypes.ForceDeleteVolume
            (ModalState.Open escalationMessage)
            (some (DeleteVolumeCb.mk
              (DockerVolume.mk "vol1" "local" "/mnt/vol1" none) true))))
          (SortState.mk VolumeSortField.Name SortOrder.Ascending) true)
        (Key.Char 'y')
        (Env.mk (Except.ok [DockerVolume.mk "vol1" "local" "/mnt/vol1" none])
          (Except.error "volume is in use"))
      = StepOutcome.err
          (VolumeState.mk [DockerVolume.mk "vol1" "local" "/mnt/vol1" none] (some 0)
            (some (BooleanModal.mk "Delete" ModalTypes.ForceDeleteVolume
              (ModalState.Open escalationMessage)
              (some (DeleteVolumeCb.mk
                (DockerVolume.mk "vol1" "local" "/mnt/vol1" none) true))))
            (SortState.mk VolumeSortField.Name SortOrder.Ascending) true)
          "volume is in use" []
    ∧ (StepOutcome.err
          (VolumeState.mk [DockerVolume.mk "vol1" "local" "/mnt/vol1" none] (some 0)
            (some (BooleanModal.mk "Delete" ModalTypes.ForceDeleteVolume
              (ModalState.Open escalationMessage)
              (some (DeleteVolumeCb.mk
                (DockerVolume.mk "vol1" "local" "/mnt/vol1" none) true))))
            (SortState.mk VolumeSortField.Name SortOrder.Ascending) true)
          "volume is in use" []).response ≠ some MessageResponse.Consumed := by
  constructor
  · simp [VolumeState.update, VolumeState.refresh, VolumeState.sort_volumes,
      sortVolumesList, VolumeState.update_modal, BooleanModal.updateModal,
      classifyModalKey]
  · simp [StepOutcome.response]

/-- C10 (amended): while a modal is present and Open, no event is ever
reported NotConsumed and no list command is dispatched — every event either
reports Consumed or surfaces an error (a failing non-escalatable action),
and in all cases nothing is sent on the channel and the selection and
visibility toggle are untouched. -/
theorem c10_open_modal_blocks_dispatch (s : VolumeState) (m : BooleanModal)
    (msg : String) (k : Key) (env : Env)
    (hm : s.modal = some m) (ho : m.state = ModalState.Open msg) :
    (s.update k env).response ≠ some MessageResponse.NotConsumed
    ∧ (s.update k env).sentMsgs = []
    ∧ (s.update k env).state.selected = s.selected
    ∧ (s.update k env).state.show_dangling = s.show_dangling := by
  cases hf : env.fetched with
  | error e =>
      have hstep : s.update k env
          = StepOutcome.err s ("unable to retrieve list of volumes: " ++ e) [] := by
        simp [VolumeState.update, VolumeState.refresh, hf]
      rw [hstep]
      exact ⟨by simp [StepOutcome.response], rfl, rfl, rfl⟩
  | ok vs =>
      have hrefresh : s.refresh env.fetched
          = Except.ok (VolumeState.sort_volumes { s with volumes := vs }) := by
        simp [VolumeState.refresh, hf]
      set s1 := VolumeState.sort_volumes { s with volumes := vs } with hs1def
      have hm1 : s1.modal = some m := hm
      rcases hu : s1.update_modal k env.actionResult with e | ⟨s2, r⟩
      · simp only [VolumeState.update, hrefresh, hu]
        exact ⟨by simp [StepOutcome.response], rfl, rfl, rfl⟩
      · have hr := update_modal_open_consumed s1 m msg k env.actionResult s2 r hm1 ho hu
        subst hr
        obtain ⟨he1, -, -, hd4⟩ := update_modal_only_modal _ _ _ _ _ hu
        simp only [VolumeState.update, hrefresh, hu]
        exact ⟨by simp [StepOutcome.response], rfl, he1, hd4⟩

/-- C10 witness for the amended theorem: hypotheses discharged on a concrete
open modal. -/
theorem c10_witness :
    (VolumeState.mk [] none
        (some (BooleanModal.mk "Delete" ModalTypes.DeleteVolume
          (ModalState.Open "Sure?") none))
        (SortState.mk VolumeSortField.Name SortOrder.Ascending) true).modal
      = some (BooleanModal.mk "Delete" ModalTypes.DeleteVolume
          (ModalState.Open "Sure?") none)
    ∧ ((VolumeState.update
        (VolumeState.mk [] none
          (some (BooleanModal.mk "Delete" ModalTypes.DeleteVolume
            (ModalState.Open "Sure?") none))
          (SortState.mk VolumeSortField.Name SortOrder.Ascending) true)
        Key.Down (Env.mk (Except.ok []) (Except.ok ()))).response
        ≠ some MessageResponse.NotConsumed
      ∧ (VolumeState.update
          (VolumeState.mk [] none
            (some (BooleanModal.mk "Delete" ModalTypes.DeleteVolume
              (ModalState.Open "Sure?") none))
            (SortState.mk VolumeSortField.Name SortOrder.Ascending) true)
          Key.Down (Env.mk (Except.ok []) (Except.ok ()))).sentMsgs = []
      ∧ (VolumeState.update
          (VolumeState.mk [] none
            (some (BooleanModal.mk "Delete" ModalTypes.DeleteVolume
              (ModalState.Open "Sure?") none))
            (SortState.mk VolumeSortField.Name SortOrder.Ascending) true)
          Key.Down (Env.mk (Except.ok []) (Except.ok ()))).state.selected = none
      ∧ (VolumeState.update
          (VolumeState.mk [] none
            (some (BooleanModal.mk "Delete" ModalTypes.DeleteVolume
              (ModalState.Open "Sure?") none))
            (SortState.mk VolumeSortField.Name SortOrder.Ascending) true)
          Key.Down (Env.mk (Except.ok []) (Except.ok ()))).state.show_dangling
        = true) :=
  ⟨rfl,
    c10_open_modal_blocks_dispatch
      (VolumeState.mk [] none
        (some (BooleanModal.mk "Delete" ModalTypes.DeleteVolume
          (ModalState.Open "Sure?") none))
        (SortState.mk VolumeSortField.Name SortOrder.Ascending) true)
      (BooleanModal.mk "Delete" ModalTypes.DeleteVolume
        (ModalState.Open "Sure?") none)
      "Sure?" Key.Down (Env.mk (Except.ok []) (Except.ok ())) rfl rfl⟩

/-! ## The drill-down round trip -/

theorem findVolumeIdx_some_name (l : List DockerVolume) (nm : String) (j : Nat)
    (h : findVolumeIdx l nm = some j) :
    ∃ w, l.get? j = some w ∧ w.name = nm := by
  induction l generalizing j with
  | nil => simp [findVolumeIdx] at h
  | cons c rest ih =>
      rw [findVolumeIdx] at h
      by_cases hc : c.name = nm
      · rw [if_pos hc] at h
        have h0 := Option.some.inj h
        subst h0
        exact ⟨c, rfl, hc⟩
      · rw [if_neg hc] at h
        rcases hmap : findVolumeIdx rest nm with _ | j1
        · rw [hmap] at h
          simp at h
        · rw [hmap] at h
          simp only [Option.map_some'] at h
          have h0 := Option.some.inj h
          subst h0
          obtain ⟨w, hw, hwn⟩ := ih j1 hmap
          refine ⟨w, ?_, hwn⟩
          rw [List.get?_cons_succ]
          exact hw

/-- C6: drilling down from a valid selection builds a context embedding the
selected volume (as the describable payload) together with a continuation
transition back to the volumes page whose context names the same volume; and
re-initialising with that continuation's context selects the first index
bearing that volume's identifier when present in the freshly fetched list,
or defaults to index 0 otherwise. -/
theorem c6_drilldown_round_trip (s : VolumeState) (i : Nat) (v : DockerVolume)
    (hsel : s.selected = some i) (hv : s.volumes.get? i = some v) :
    s.get_context = Except.ok (AppContext.mk none (some v)
        (some (Transition.ToVolumePage (AppContext.mk (some v) none none))))
    ∧ (∀ (t : VolumeState) (vs : List DockerVolume) (s' : VolumeState) (j : Nat),
        t.initialise (AppContext.mk (some v) none none) (Except.ok vs)
          = Except.ok s' →
        findVolumeIdx s'.volumes v.name = some j →
        s'.selected = some j
          ∧ ∃ w, s'.volumes.get? j = some w ∧ w.name = v.name)
    ∧ (∀ (t : VolumeState) (vs : List DockerVolume) (s' : VolumeState),
        t.initialise (AppContext.mk (some v) none none) (Except.ok vs)
          = Except.ok s' →
        findVolumeIdx s'.volumes v.name = none →
        s'.selected = some 0) := by
  refine ⟨?_, ?_, ?_⟩
  · have hv2 : s.volumes[i]? = some v := by
      rw [← List.get?_eq_getElem?]
      exact hv
    simp [VolumeState.get_context, VolumeState.get_volume, hsel, hv2]
  · intro t vs s' j hinit hfind
    simp only [VolumeState.initialise, VolumeState.refresh, VolumeState.sort_volumes,
      AppContext.docker_volume, AppContext.describable] at hinit
    rcases hfind2 : findVolumeIdx
        (sortVolumesList t.sort_state vs) v.name with _ | idx
    · rw [hfind2] at hinit
      have hs' := Except.ok.inj hinit
      subst hs'
      have hfind' : findVolumeIdx (sortVolumesList t.sort_state vs) v.name
          = some j := hfind
      rw [hfind2] at hfind'
      cases hfind'
    · rw [hfind2] at hinit
      have hs' := Except.ok.inj hinit
      subst hs'
      have hfind' : findVolumeIdx (sortVolumesList t.sort_state vs) v.name
          = some j := hfind
      rw [hfind2] at hfind'
      have hj := Option.some.inj hfind'
      subst hj
      exact ⟨rfl, findVolumeIdx_some_name _ _ _ hfind⟩
  · intro t vs s' hinit hfind
    simp only [VolumeState.initialise, VolumeState.refresh, VolumeState.sort_volumes,
      AppContext.docker_volume, AppContext.describable] at hinit
    rcases hfind2 : findVolumeIdx
        (sortVolumesList t.sort_state vs) v.name with _ | idx
    · rw [hfind2] at hinit
      have hs' := Except.ok.inj hinit
      subst hs'
      rfl
    · rw [hfind2] at hinit
      have hs' := Except.ok.inj hinit
      subst hs'
      have hfind' : findVolumeIdx (sortVolumesList t.sort_state vs) v.name
          = none := hfind
      rw [hfind2] at hfind'
      cases hfind'

/-- C6 witness: hypotheses discharged on a singleton list with the selection
at index 0. -/
theorem c6_witness :
    (VolumeState.mk [DockerVolume.mk "vol1" "local" "/mnt/vol1" none] (some 0)
        none (SortState.mk VolumeSortField.Name SortOrder.Ascending) true).selected
      = some 0
    ∧ (VolumeState.mk [DockerVolume.mk "vol1" "local" "/mnt/vol1" none] (some 0)
        none (SortState.mk VolumeSortField.Name SortOrder.Ascending)
        true).volumes.get? 0
      = some (DockerVolume.mk "vol1" "local" "/mnt/vol1" none)
    ∧ (VolumeState.mk [DockerVolume.mk "vol1" "local" "/mnt/vol1" none] (some 0)
        none (SortState.mk VolumeSortField.Name SortOrder.Ascending)
        true).get_context
      = Except.ok (AppContext.mk none
          (some (DockerVolume.mk "vol1" "local" "/mnt/vol1" none))
          (some (Transition.ToVolumePage (AppContext.mk
            (some (DockerVolume.mk "vol1" "local" "/mnt/vol1" none)) none none)))) :=
  ⟨rfl, rfl,
    (c6_drilldown_round_trip
      (VolumeState.mk [DockerVolume.mk "vol1" "local" "/mnt/vol1" none] (some 0)
        none (SortState.mk VolumeSortField.Name SortOrder.Ascending) true)
      0 (DockerVolume.mk "vol1" "local" "/mnt/vol1" none) rfl rfl).1⟩

end Ducker
